import Mathlib

/-!
Verification development for the AI-Notebook repository.

This file gives a shallow embedding of the three pieces of the core that the
specification documents:

* the `ExcelStorage` persistence adapter (localStorage-backed, one JSON blob
  under a single storage key);
* the `notepadReducer` document state store;
* the `processAICommands` chat command extractor.

Modelling decisions, written once here and referenced below:

* JavaScript `Date` values are modelled as integers (milliseconds since the
  epoch).  `Date.prototype.toISOString` at millisecond precision is injective
  and `new Date(iso)` parses it back exactly, so in the blob model a stored
  ISO-8601 string is represented by the instant it denotes.
* `localStorage` is modelled by the single key the adapter uses: an
  `Option Blob`, where a `Blob` is either well-formed parsed data or a
  corrupt (unparsable) string.  `JSON.parse` of a corrupt blob throws; a
  thrown exception is an `Except.error ()`.
* A write that throws (for example on quota exhaustion) is modelled by the
  boolean parameter `wt` (write-throws) of the mutating operations.
* Strings are processed as `List Char`; `toLowerCase` is `Char.toLower`
  mapped over the characters (ASCII-faithful, which covers every literal the
  code matches against).
-/

namespace AINotebook

/-- In-memory `Document` shape (dates as instants, see the header). -/
structure Document where
  id : String
  title : String
  content : String
  createdAt : Int
  updatedAt : Int
  tags : List String
deriving DecidableEq, Repr

inductive TodoStatus where
  | pending
  | inProgress
  | completed
deriving DecidableEq, Repr

inductive TodoPriority where
  | high
  | medium
  | low
deriving DecidableEq, Repr

/-- In-memory `TodoItem` shape. -/
structure TodoItem where
  id : String
  content : String
  status : TodoStatus
  priority : TodoPriority
  createdAt : Int
  updatedAt : Int
deriving DecidableEq, Repr

/-- Serialized document record as held in the blob (`docData` in
`saveDocument`): same fields, with the two dates stored as their ISO-8601
strings, represented by the instants they denote (see the header). -/
structure StoredDoc where
  id : String
  title : String
  content : String
  tags : List String
  createdAt : Int
  updatedAt : Int
deriving DecidableEq, Repr

/-- Serialized todo record as held in the blob (`todoData` in `saveTodo`). -/
structure StoredTodo where
  id : String
  content : String
  status : TodoStatus
  priority : TodoPriority
  createdAt : Int
  updatedAt : Int
deriving DecidableEq, Repr

/-- The parsed shape of the blob: `{ documents: [...], todos: [...] }`. -/
structure ExcelData where
  documents : List StoredDoc
  todos : List StoredTodo
deriving DecidableEq, Repr

/-- The string stored under `STORAGE_KEY`, as far as parsing is concerned:
either it parses to an `ExcelData`, or `JSON.parse` throws on it. -/
inductive Blob where
  | good (d : ExcelData)
  | corrupt
deriving DecidableEq, Repr

/-- State of one `ExcelStorage` instance: the in-memory cache `this.data`
and the content of `localStorage` under the storage key. -/
structure StorageState where
  cache : ExcelData
  stored : Option Blob
deriving DecidableEq, Repr

/-- `Array.prototype.findIndex`, with `-1` modelled as `none`. -/
def findIndex (p : α → Bool) : List α → Option Nat
  | [] => none
  | x :: xs => if p x then some 0 else (findIndex p xs).map (· + 1)

/-- `Array.prototype.find`, with `undefined` modelled as `none`. -/
def findFirst (p : α → Bool) : List α → Option α
  | [] => none
  | x :: xs => if p x then some x else findFirst p xs

/-- In-place update of the element at an index (`arr[i] = v`). -/
def setAt : List α → Nat → α → List α
  | [], _, _ => []
  | _ :: xs, 0, a => a :: xs
  | x :: xs, n + 1, a => x :: setAt xs n a

/-- `ExcelStorage.loadData`: read the key; if a string is present, parse it
into `this.data` (throwing if it is corrupt); return `this.data`. -/
def loadData (s : StorageState) : Except Unit (ExcelData × StorageState) :=
  match s.stored with
  | none => Except.ok (s.cache, s)
  | some (Blob.good d) => Except.ok (d, { s with cache := d })
  | some Blob.corrupt => Except.error ()

/-- `ExcelStorage.saveData`: serialize `this.data` and write it under the
key; `wt` is true when the underlying write throws. -/
def saveData (wt : Bool) (s : StorageState) : Except Unit StorageState :=
  if wt then Except.error ()
  else Except.ok { s with stored := some (Blob.good s.cache) }

/-- The `docData` record built inside `ExcelStorage.saveDocument`. -/
def docToStored (doc : Document) : StoredDoc :=
  { id := doc.id, title := doc.title, content := doc.content
    tags := doc.tags, createdAt := doc.createdAt, updatedAt := doc.updatedAt }

/-- Reconstitution performed by `getDocument` / `getAllDocuments`
(`new Date(...)` on the two date fields). -/
def storedToDoc (d : StoredDoc) : Document :=
  { id := d.id, title := d.title, content := d.content
    createdAt := d.createdAt, updatedAt := d.updatedAt, tags := d.tags }

/-- `ExcelStorage.saveDocument`. -/
def saveDocument (wt : Bool) (doc : Document) (s : StorageState) :
    Except Unit StorageState :=
  match loadData s with
  | Except.error e => Except.error e
  | Except.ok (data, s1) =>
    let docData := docToStored doc
    let documents :=
      match findIndex (fun d => d.id = doc.id) data.documents with
      | some i => setAt data.documents i docData
      | none => data.documents ++ [docData]
    saveData wt { s1 with cache := { data with documents := documents } }

/-- `ExcelStorage.getDocument`. -/
def getDocument (id : String) (s : StorageState) :
    Except Unit (Option Document × StorageState) :=
  match loadData s with
  | Except.error e => Except.error e
  | Except.ok (data, s1) =>
    match findFirst (fun d => d.id = id) data.documents with
    | none => Except.ok (none, s1)
    | some d => Except.ok (some (storedToDoc d), s1)

/-- `ExcelStorage.getAllDocuments`. -/
def getAllDocuments (s : StorageState) :
    Except Unit (List Document × StorageState) :=
  match loadData s with
  | Except.error e => Except.error e
  | Except.ok (data, s1) => Except.ok (data.documents.map storedToDoc, s1)

/-- `ExcelStorage.deleteDocument`. -/
def deleteDocument (wt : Bool) (id : String) (s : StorageState) :
    Except Unit StorageState :=
  match loadData s with
  | Except.error e => Except.error e
  | Except.ok (data, s1) =>
    saveData wt
      { s1 with cache :=
          { data with documents := data.documents.filter (fun d => !(d.id = id)) } }

/-- Case-insensitive substring test used by `searchDocuments` and the
command extractor (`String.prototype.includes` on lowercased text). -/
def hasPrefixB : List Char → List Char → Bool
  | [], _ => true
  | _ :: _, [] => false
  | a :: as, b :: bs => a = b && hasPrefixB as bs

def containsSub (needle : List Char) : List Char → Bool
  | [] => hasPrefixB needle []
  | c :: rest => hasPrefixB needle (c :: rest) || containsSub needle rest

/-- `toLowerCase`, ASCII-faithfully. -/
def lowerOf (s : String) : List Char := s.data.map Char.toLower

/-- `ExcelStorage.searchDocuments`. -/
def searchDocuments (q : String) (s : StorageState) :
    Except Unit (List Document × StorageState) :=
  match getAllDocuments s with
  | Except.error e => Except.error e
  | Except.ok (allDocs, s1) =>
    let lowerQuery := lowerOf q
    Except.ok
      (allDocs.filter (fun doc =>
        containsSub lowerQuery (lowerOf doc.title) ||
        containsSub lowerQuery (lowerOf doc.content) ||
        doc.tags.any (fun tag => containsSub lowerQuery (lowerOf tag))), s1)

/-- The `todoData` record built inside `ExcelStorage.saveTodo`. -/
def todoToStored (todo : TodoItem) : StoredTodo :=
  { id := todo.id, content := todo.content, status := todo.status
    priority := todo.priority, createdAt := todo.createdAt
    updatedAt := todo.updatedAt }

def storedToTodo (t : StoredTodo) : TodoItem :=
  { id := t.id, content := t.content, status := t.status
    priority := t.priority, createdAt := t.createdAt, updatedAt := t.updatedAt }

/-- `ExcelStorage.saveTodo`. -/
def saveTodo (wt : Bool) (todo : TodoItem) (s : StorageState) :
    Except Unit StorageState :=
  match loadData s with
  | Except.error e => Except.error e
  | Except.ok (data, s1) =>
    let todoData := todoToStored todo
    let todos :=
      match findIndex (fun t => t.id = todo.id) data.todos with
      | some i => setAt data.todos i todoData
      | none => data.todos ++ [todoData]
    saveData wt { s1 with cache := { data with todos := todos } }

/-- `ExcelStorage.getAllTodos`. -/
def getAllTodos (s : StorageState) :
    Except Unit (List TodoItem × StorageState) :=
  match loadData s with
  | Except.error e => Except.error e
  | Except.ok (data, s1) => Except.ok (data.todos.map storedToTodo, s1)

/-- `ExcelStorage.deleteTodo`. -/
def deleteTodo (wt : Bool) (id : String) (s : StorageState) :
    Except Unit StorageState :=
  match loadData s with
  | Except.error e => Except.error e
  | Except.ok (data, s1) =>
    saveData wt
      { s1 with cache :=
          { data with todos := data.todos.filter (fun t => !(t.id = id)) } }

/-- `ExcelStorage.updateTodo`: delegates to `saveTodo`. -/
def updateTodo (wt : Bool) (todo : TodoItem) (s : StorageState) :
    Except Unit StorageState :=
  saveTodo wt todo s

/-- Persisted-plus-cached todo view of a state, as observed through
`getAllTodos` (the value component only). -/
def todosOf (s : StorageState) : Except Unit (List TodoItem) :=
  match getAllTodos s with
  | Except.error e => Except.error e
  | Except.ok (ts, _) => Except.ok ts

/-- Document view of a state, as observed through `getAllDocuments`. -/
def docsOf (s : StorageState) : Except Unit (List Document) :=
  match getAllDocuments s with
  | Except.error e => Except.error e
  | Except.ok (ds, _) => Except.ok ds

/-! ## The notepad state store (`notepadReducer`) -/

/-- `NotepadState` from the reducer module. -/
structure NotepadState where
  documents : List Document
  activeDocumentId : Option String
  isPreviewMode : Bool
  searchQuery : String
deriving DecidableEq, Repr

/-- `NotepadAction`. -/
inductive NotepadAction where
  | setDocuments (payload : List Document)
  | addDocument (payload : Document)
  | updateDocument (id : String) (content : String) (title : String)
  | deleteDocument (payload : String)
  | setActiveDocument (payload : Option String)
  | togglePreviewMode
  | setSearchQuery (payload : String)
deriving DecidableEq, Repr

/-- `notepadReducer`; `now` is the instant `new Date()` evaluates to in the
`UPDATE_DOCUMENT` case. -/
def notepadReducer (now : Int) (state : NotepadState) :
    NotepadAction → NotepadState
  | NotepadAction.setDocuments payload => { state with documents := payload }
  | NotepadAction.addDocument payload =>
      { state with documents := state.documents ++ [payload] }
  | NotepadAction.updateDocument id content title =>
      { state with documents :=
          state.documents.map (fun doc =>
            if doc.id = id then
              { doc with content := content, title := title, updatedAt := now }
            else doc) }
  | NotepadAction.deleteDocument payload =>
      { state with
          documents := state.documents.filter (fun doc => !(doc.id = payload))
          activeDocumentId :=
            match state.activeDocumentId with
            | some a => if a = payload then none else some a
            | none => none }
  | NotepadAction.setActiveDocument payload =>
      { state with activeDocumentId := payload }
  | NotepadAction.togglePreviewMode =>
      { state with isPreviewMode := !state.isPreviewMode }
  | NotepadAction.setSearchQuery payload =>
      { state with searchQuery := payload }

/-! ## The command extractor (`processAICommands`)

The two regex literals of the extractor are embedded as sequences of simple
items (ordered alternations of literals, greedy character-class repetitions,
one capture group) and matched by a backtracking matcher with the JavaScript
preference order: earliest start position first, then alternatives in
written order, then longer repetitions first. -/

/-- One item of a regex: the fragments the two patterns are built from. -/
inductive RItem where
  /-- `(?:a|b|c)`: ordered alternation of literal strings. -/
  | lit (alts : List (List Char))
  /-- `(?:a|b|c)?`: optional ordered alternation (greedy: present first). -/
  | opt (alts : List (List Char))
  /-- `[class]*`: greedy repetition of a character class. -/
  | cls (p : Char → Bool)
  /-- `[class]+`. -/
  | clsPlus (p : Char → Bool)
  /-- `([class]+)`: the capture group. -/
  | cap (p : Char → Bool)

/-- First alternative that produces a result (backtracking order). -/
def firstSome : List α → (α → Option β) → Option β
  | [], _ => none
  | x :: xs, f =>
    match f x with
    | some b => some b
    | none => firstSome xs f

/-- Case-insensitive literal prefix strip (the `/i` flag). -/
def stripPrefixCI : List Char → List Char → Option (List Char)
  | [], s => some s
  | _ :: _, [] => none
  | a :: as, c :: cs =>
    if a.toLower = c.toLower then stripPrefixCI as cs else none

/-- Suffixes reachable by consuming a run of class characters, longest
first (greedy order); always includes the zero-consumption suffix last. -/
def clsSuffixes (p : Char → Bool) : List Char → List (List Char)
  | [] => [[]]
  | c :: rest =>
    if p c then clsSuffixes p rest ++ [c :: rest] else [c :: rest]

/-- Capture candidates `(captured, remaining)` for a greedy `([class]+)`,
longest capture first. -/
def capSplits (p : Char → Bool) : List Char → List (List Char × List Char)
  | [] => []
  | c :: rest =>
    if p c then
      (capSplits p rest).map (fun pr => (c :: pr.1, pr.2)) ++ [([c], rest)]
    else []

/-- Match a sequence of items at the start of `s`; on success return the
content of the capture group if the matched path went through one. -/
def matchSeq : List RItem → List Char → Option (Option (List Char))
  | [], _ => some none
  | RItem.lit alts :: rest, s =>
    firstSome alts (fun a =>
      match stripPrefixCI a s with
      | some s2 => matchSeq rest s2
      | none => none)
  | RItem.opt alts :: rest, s =>
    (match firstSome alts (fun a =>
        match stripPrefixCI a s with
        | some s2 => matchSeq rest s2
        | none => none) with
     | some r => some r
     | none => matchSeq rest s)
  | RItem.cls p :: rest, s =>
    firstSome (clsSuffixes p s) (fun s2 => matchSeq rest s2)
  | RItem.clsPlus p :: rest, s =>
    firstSome ((clsSuffixes p s).dropLast) (fun s2 => matchSeq rest s2)
  | RItem.cap p :: rest, s =>
    firstSome (capSplits p s) (fun pr =>
      match matchSeq rest pr.2 with
      | some _ => some (some pr.1)
      | none => none)

/-- `String.prototype.match` for an unanchored pattern: try each start
position from the left, return the capture of the first match. -/
def searchFrom (items : List RItem) : List Char → Option (List Char)
  | [] =>
    (match matchSeq items [] with
     | some cp => some (cp.getD [])
     | none => none)
  | c :: rest =>
    (match matchSeq items (c :: rest) with
     | some cp => some (cp.getD [])
     | none => searchFrom items rest)

/-- `\s`, over the ASCII range actually exercised by the patterns. -/
def isWs (c : Char) : Bool :=
  c = ' ' || c = '\t' || c = '\n' || c = '\r' ||
  c = Char.ofNat 11 || c = Char.ofNat 12

/-- The double-quote character. -/
def dq : Char := Char.ofNat 34

/-- The single-quote character. -/
def sq : Char := Char.ofNat 39

/-- `[^"'\n]`. -/
def notQuoteNl (c : Char) : Bool := !(c = dq || c = sq || c = '\n')

/-- `[^\n]`. -/
def notNl (c : Char) : Bool := !(c = '\n')

/-- The title pattern
`(?:create|new|add)\s+document\s+(?:titled|called|named)?\s*["\x27]?([^"\x27\n]+)["\x27]?`
(flag `i`). -/
def titleRegex : List RItem :=
  [RItem.lit ["create".data, "new".data, "add".data],
   RItem.clsPlus isWs,
   RItem.lit ["document".data],
   RItem.clsPlus isWs,
   RItem.opt ["titled".data, "called".data, "named".data],
   RItem.cls isWs,
   RItem.opt [[dq], [sq]],
   RItem.cap notQuoteNl,
   RItem.opt [[dq], [sq]]]

/-- The todo pattern
`(?:create|add|new)\s+todo\s+["\x27]?([^"\x27\n]+)["\x27]?` (flag `i`). -/
def todoRegex : List RItem :=
  [RItem.lit ["create".data, "add".data, "new".data],
   RItem.clsPlus isWs,
   RItem.lit ["todo".data],
   RItem.clsPlus isWs,
   RItem.opt [[dq], [sq]],
   RItem.cap notQuoteNl,
   RItem.opt [[dq], [sq]]]

/-- The reminder pattern `remind me to\s+([^\n]+)` (flag `i`). -/
def remindRegex : List RItem :=
  [RItem.lit ["remind me to".data],
   RItem.clsPlus isWs,
   RItem.cap notNl]

/-- `String.prototype.trim`. -/
def trimChars (s : List Char) : List Char :=
  ((s.dropWhile isWs).reverse.dropWhile isWs).reverse

/-- The entity a chat turn creates, if any. -/
inductive CreatedEntity where
  | doc (d : Document)
  | todo (t : TodoItem)
deriving DecidableEq, Repr

/-- `createDocument` helper of the chat component (`Date.now()` is `now`). -/
def createDocument (now : Int) (title : String) : Document :=
  { id := toString now, title := title, content := ""
    createdAt := now, updatedAt := now, tags := [] }

/-- `createTodo` helper of the chat component. -/
def createTodo (now : Int) (text : String) (priority : TodoPriority) :
    TodoItem :=
  { id := toString now, content := text, status := TodoStatus.pending
    priority := priority, createdAt := now, updatedAt := now }

def priorityText : TodoPriority → String
  | TodoPriority.high => "high"
  | TodoPriority.medium => "medium"
  | TodoPriority.low => "low"

/-- The single-quote character as a one-character string. -/
def sqStr : String := String.singleton sq

/-- The confirmation message of the document branch. -/
def docConfirm (title : String) : String :=
  "✅ I" ++ sqStr ++ "ve created a new document titled \"" ++ title ++
  "\" for you! You can find it in your documents list."

/-- The confirmation message of the todo branch. -/
def todoConfirm (text : String) (priority : TodoPriority) : String :=
  "✅ I" ++ sqStr ++ "ve added \"" ++ text ++ "\" to your todo list with " ++
  priorityText priority ++ " priority! You can view it in the Todo section."

/-- The document trigger test (`lowerInput.includes(...)` disjunction). -/
def docTrigger (lowerInput : List Char) : Bool :=
  containsSub "create document".data lowerInput ||
  containsSub "new document".data lowerInput ||
  containsSub "add document".data lowerInput

/-- The todo trigger test. -/
def todoTrigger (lowerInput : List Char) : Bool :=
  containsSub "create todo".data lowerInput ||
  containsSub "add todo".data lowerInput ||
  containsSub "new todo".data lowerInput ||
  containsSub "remind me".data lowerInput

/-- The priority ternary of the todo branch. -/
def inferPriority (lowerInput : List Char) : TodoPriority :=
  if containsSub "urgent".data lowerInput ||
     containsSub "important".data lowerInput then TodoPriority.high
  else if containsSub "low priority".data lowerInput then TodoPriority.low
  else TodoPriority.medium

/-- The document branch of `processAICommands`: when the trigger phrase is
present and the title pattern captures, the created document and the
confirmation reply; `none` when the branch falls through. -/
def docCommandStep (now : Int) (userInput : String) :
    Option (CreatedEntity × String) :=
  if docTrigger (lowerOf userInput) then
    match searchFrom titleRegex userInput.data with
    | some raw =>
      let title := String.mk (trimChars raw)
      some (CreatedEntity.doc (createDocument now title), docConfirm title)
    | none => none
  else none

/-- The todo branch of `processAICommands` (`match(todo) || match(remind)`,
then the priority ternary). -/
def todoCommandStep (now : Int) (userInput : String) :
    Option (CreatedEntity × String) :=
  if todoTrigger (lowerOf userInput) then
    match
      (match searchFrom todoRegex userInput.data with
       | some r => some r
       | none => searchFrom remindRegex userInput.data) with
    | some raw =>
      let todoText := String.mk (trimChars raw)
      let priority := inferPriority (lowerOf userInput)
      some (CreatedEntity.todo (createTodo now todoText priority),
            todoConfirm todoText priority)
    | none => none
  else none

/-- `processAICommands userInput aiResponse`: the document branch returns
first when it fires, then the todo branch, otherwise the AI reply is
returned unchanged.  The first component is the entity created as a side
effect (via the storage service and, for documents, an `ADD_DOCUMENT`
dispatch); the second is the returned reply text. -/
def processAICommands (now : Int) (userInput aiResponse : String) :
    Option CreatedEntity × String :=
  match docCommandStep now userInput with
  | some (e, msg) => (some e, msg)
  | none =>
    match todoCommandStep now userInput with
    | some (e, msg) => (some e, msg)
    | none => (none, aiResponse)

/-! ## Definitions taken from the specification text (for the refinement
claim) and concrete sample inputs used by witnesses and counterexamples -/

/-- Save-with-overwrite as the specification words it: replace the record
with the matching id if present, else append. -/
def saveWithOverwrite (t : StoredTodo) : List StoredTodo → List StoredTodo
  | [] => [t]
  | x :: xs => if x.id = t.id then t :: xs else x :: saveWithOverwrite t xs

/-- The in-blob document update performed by `saveDocument`, named for use
in statements (definitionally the inline match in `saveDocument`). -/
def overwriteDoc (doc : Document) (l : List StoredDoc) : List StoredDoc :=
  match findIndex (fun d => d.id = doc.id) l with
  | some i => setAt l i (docToStored doc)
  | none => l ++ [docToStored doc]

/-- Empty parsed blob. -/
def emptyData : ExcelData := { documents := [], todos := [] }

/-- A state whose stored blob is unparsable. -/
def corruptState : StorageState := { cache := emptyData, stored := some Blob.corrupt }

/-- A sample document. -/
def sampleDoc : Document :=
  { id := "1", title := "note", content := "hello", createdAt := 3
    updatedAt := 4, tags := ["a", "b"] }

/-- A sample todo. -/
def sampleTodo : TodoItem :=
  { id := "7", content := "water plants", status := TodoStatus.pending
    priority := TodoPriority.low, createdAt := 1, updatedAt := 2 }

/-- A sample persisted state with one document and one todo. -/
def sampleState : StorageState :=
  { cache := emptyData
    stored := some (Blob.good
      { documents := [docToStored sampleDoc], todos := [todoToStored sampleTodo] }) }

/-- A sample notepad state with one document. -/
def sampleNotepad : NotepadState :=
  { documents := [{ id := "1", title := "a", content := "b", createdAt := 0
                    updatedAt := 0, tags := [] }]
    activeDocumentId := some "1", isPreviewMode := false, searchQuery := "" }

/-- A message whose document trigger phrase is present but whose title
pattern fails (no whitespace after "document"), while the reminder pattern
still matches. -/
def garbledDocMessage : String :=
  "create document" ++ sqStr ++ "remind me to pay bills"

/-- A message that matches the reminder pattern but is consumed by the
document branch first. -/
def docOverRemindMessage : String := "create document remind me to pay the bills"

/-! ## Helper lemmas -/

theorem findFirst_setAt_of_findIndex (p : α → Bool) (a : α) (ha : p a = true) :
    ∀ (l : List α) (i : Nat), findIndex p l = some i →
      findFirst p (setAt l i a) = some a := by
  intro l
  induction l with
  | nil => intro i h; simp [findIndex] at h
  | cons x xs ih =>
    intro i h
    by_cases hx : p x = true
    · simp [findIndex, hx] at h
      subst h
      simp [setAt, findFirst, ha]
    · simp [findIndex, hx] at h
      obtain ⟨j, hj, rfl⟩ := h
      simp [setAt, findFirst, hx, ih j hj]

theorem findFirst_append_of_findIndex_none (p : α → Bool) (a : α)
    (ha : p a = true) :
    ∀ l : List α, findIndex p l = none → findFirst p (l ++ [a]) = some a := by
  intro l
  induction l with
  | nil => intro _; simp [findFirst, ha]
  | cons x xs ih =>
    intro h
    by_cases hx : p x = true
    · simp [findIndex, hx] at h
    · simp [findIndex, hx] at h
      simp [findFirst, hx, ih h]

theorem findFirst_overwriteDoc (doc : Document) (l : List StoredDoc) :
    findFirst (fun d => d.id = doc.id) (overwriteDoc doc l) =
      some (docToStored doc) := by
  unfold overwriteDoc
  cases hidx : findIndex (fun d => d.id = doc.id) l with
  | some i =>
    exact findFirst_setAt_of_findIndex _ _ (by simp [docToStored]) l i hidx
  | none =>
    exact findFirst_append_of_findIndex_none _ _ (by simp [docToStored]) l hidx

theorem overwrite_eq_saveWithOverwrite (a : StoredTodo) :
    ∀ l : List StoredTodo,
      (match findIndex (fun x => x.id = a.id) l with
       | some i => setAt l i a
       | none => l ++ [a]) = saveWithOverwrite a l := by
  intro l
  induction l with
  | nil => rfl
  | cons x xs ih =>
    by_cases hx : x.id = a.id
    · simp [findIndex, hx, saveWithOverwrite, setAt]
    · have ih2 := ih
      cases hfi : findIndex (fun y => y.id = a.id) xs with
      | none =>
        rw [hfi] at ih2
        simp [findIndex, hx, hfi, saveWithOverwrite, ← ih2]
      | some j =>
        rw [hfi] at ih2
        simp [findIndex, hx, hfi, saveWithOverwrite, setAt, ← ih2]

/-! ## Claim C1 -/

/-- Claim C1 counterexample: on a corrupt stored blob every read operation
of the adapter raises (the parse error propagates) instead of behaving as
an empty store. -/
theorem corrupt_read_raises_cex :
    getDocument "1" corruptState = Except.error () ∧
    getAllDocuments corruptState = Except.error () ∧
    getAllTodos corruptState = Except.error () ∧
    searchDocuments "a" corruptState = Except.error () :=
  ⟨rfl, rfl, rfl, rfl⟩

/-- Claim C1 (amended): when the stored blob is corrupt or unparsable,
every read operation of the adapter propagates the `JSON.parse` exception
(its promise rejects); the adapter does not catch it and does not
re-initialize its cache. -/
theorem corrupt_read_raises (s : StorageState) (id q : String)
    (h : s.stored = some Blob.corrupt) :
    getDocument id s = Except.error () ∧
    getAllDocuments s = Except.error () ∧
    getAllTodos s = Except.error () ∧
    searchDocuments q s = Except.error () := by
  refine ⟨?_, ?_, ?_, ?_⟩ <;>
    simp [getDocument, getAllDocuments, getAllTodos, searchDocuments,
      loadData, h]

/-- Witness for `corrupt_read_raises` at a concrete corrupt state. -/
theorem corrupt_read_raises_witness :
    corruptState.stored = some Blob.corrupt ∧
    getAllDocuments corruptState = Except.error () :=
  ⟨rfl, (corrupt_read_raises corruptState "1" "a" rfl).2.1⟩

/-! ## Claim C2 -/

/-- Claim C2 counterexample: when the underlying key-value write throws,
`saveDocument` propagates the exception to its caller instead of
swallowing it. -/
theorem save_write_throw_cex :
    saveDocument true sampleDoc { cache := emptyData, stored := none } =
      Except.error () := rfl

/-- Claim C2 (amended): the adapter does not guard the underlying
read/write; if the underlying key-value write throws, `saveDocument` (and
every other mutating operation) propagates the exception to its caller. -/
theorem saveDocument_propagates_write_failure (doc : Document)
    (todo : TodoItem) (did tid : String) (s : StorageState) :
    saveDocument true doc s = Except.error () ∧
    deleteDocument true did s = Except.error () ∧
    saveTodo true todo s = Except.error () ∧
    deleteTodo true tid s = Except.error () := by
  refine ⟨?_, ?_, ?_, ?_⟩ <;>
    (cases hs : s.stored with
     | none => simp [saveDocument, deleteDocument, saveTodo, deleteTodo,
         loadData, saveData, hs]
     | some b =>
       cases b <;>
         simp [saveDocument, deleteDocument, saveTodo, deleteTodo,
           loadData, saveData, hs])

/-! ## Claim C3 -/

/-- `saveDocument` on a state with no stored blob, in closed form. -/
theorem saveDocument_none_eq (doc : Document) (c : ExcelData) :
    saveDocument false doc { cache := c, stored := none } =
      Except.ok
        { cache := { c with documents := overwriteDoc doc c.documents }
          stored := some (Blob.good
            { c with documents := overwriteDoc doc c.documents }) } := rfl

/-- `saveDocument` on a well-formed stored blob, in closed form. -/
theorem saveDocument_good_eq (doc : Document) (c data : ExcelData) :
    saveDocument false doc { cache := c, stored := some (Blob.good data) } =
      Except.ok
        { cache := { data with documents := overwriteDoc doc data.documents }
          stored := some (Blob.good
            { data with documents := overwriteDoc doc data.documents }) } := rfl

/-- `getDocument` on a well-formed stored blob, in closed form. -/
theorem getDocument_good_eq (id : String) (c d : ExcelData) :
    getDocument id { cache := c, stored := some (Blob.good d) } =
      (match findFirst (fun x => x.id = id) d.documents with
       | none => Except.ok (none, { cache := d, stored := some (Blob.good d) })
       | some x =>
         Except.ok (some (storedToDoc x),
           { cache := d, stored := some (Blob.good d) })) := rfl

/-- Claim C3 (confirmed): for every document and every state whose blob is
not corrupt, `saveDocument` followed by `getDocument` on the same id
returns the document back, equal in every field; the two date fields go
through their ISO-8601 string representation in the blob, which is the
identity on the instants they denote. -/
theorem saveDocument_getDocument_roundtrip (doc : Document) (s : StorageState)
    (h : s.stored ≠ some Blob.corrupt) :
    ∃ s1 s2, saveDocument false doc s = Except.ok s1 ∧
      getDocument doc.id s1 = Except.ok (some doc, s2) := by
  obtain ⟨c, st⟩ := s
  cases st with
  | none =>
    refine ⟨_,
      { cache := { c with documents := overwriteDoc doc c.documents }
        stored := some (Blob.good { c with documents := overwriteDoc doc c.documents }) },
      saveDocument_none_eq doc c, ?_⟩
    rw [getDocument_good_eq, findFirst_overwriteDoc]
    rfl
  | some b =>
    cases b with
    | corrupt => exact absurd rfl h
    | good data =>
      refine ⟨_,
        { cache := { data with documents := overwriteDoc doc data.documents }
          stored := some (Blob.good { data with documents := overwriteDoc doc data.documents }) },
        saveDocument_good_eq doc c data, ?_⟩
      rw [getDocument_good_eq, findFirst_overwriteDoc]
      rfl

/-- Witness for the round-trip theorem at a concrete document and state. -/
theorem saveDocument_getDocument_roundtrip_witness :
    sampleState.stored ≠ some Blob.corrupt ∧
    (∃ s1 s2, saveDocument false sampleDoc sampleState = Except.ok s1 ∧
      getDocument sampleDoc.id s1 = Except.ok (some sampleDoc, s2)) :=
  ⟨by decide, saveDocument_getDocument_roundtrip sampleDoc sampleState (by decide)⟩

/-! ## Claim C9 -/

/-- Claim C9 (confirmed): `updateTodo` is extensionally `saveTodo`, and
`saveTodo` on a well-formed blob persists exactly the save-with-overwrite
(replace the record with the matching id if present, else append) of the
stored todo sequence. -/
theorem updateTodo_is_saveTodo :
    (∀ (wt : Bool) (todo : TodoItem) (s : StorageState),
      updateTodo wt todo s = saveTodo wt todo s) ∧
    (∀ (todo : TodoItem) (c data : ExcelData),
      saveTodo false todo { cache := c, stored := some (Blob.good data) } =
        Except.ok
          { cache := { data with todos := saveWithOverwrite (todoToStored todo) data.todos }
            stored := some (Blob.good
              { data with todos := saveWithOverwrite (todoToStored todo) data.todos }) }) := by
  constructor
  · intro wt todo s; rfl
  · intro todo c data
    rw [← overwrite_eq_saveWithOverwrite (todoToStored todo) data.todos]
    rfl

/-! ## Claim C10 -/

/-- Claim C10 (confirmed): on a non-corrupt state, document writes leave
the todo view of the store unchanged, and todo writes leave the document
view unchanged, even though both live in the same blob. -/
theorem entity_kinds_framed (doc : Document) (todo : TodoItem)
    (did tid : String) (s : StorageState)
    (h : s.stored ≠ some Blob.corrupt) :
    (∀ s1, saveDocument false doc s = Except.ok s1 → todosOf s1 = todosOf s) ∧
    (∀ s1, deleteDocument false did s = Except.ok s1 → todosOf s1 = todosOf s) ∧
    (∀ s1, saveTodo false todo s = Except.ok s1 → docsOf s1 = docsOf s) ∧
    (∀ s1, deleteTodo false tid s = Except.ok s1 → docsOf s1 = docsOf s) := by
  obtain ⟨c, st⟩ := s
  cases st with
  | none =>
    refine ⟨?_, ?_, ?_, ?_⟩ <;> intro s1 hs1 <;>
      (have h2 := Except.ok.inj hs1; subst h2; rfl)
  | some b =>
    cases b with
    | corrupt => exact absurd rfl h
    | good data =>
      refine ⟨?_, ?_, ?_, ?_⟩ <;> intro s1 hs1 <;>
        (have h2 := Except.ok.inj hs1; subst h2; rfl)

/-- Witness for the frame theorem at a concrete state. -/
theorem entity_kinds_framed_witness :
    sampleState.stored ≠ some Blob.corrupt ∧
    (∀ s1, saveDocument false sampleDoc sampleState = Except.ok s1 →
      todosOf s1 = todosOf sampleState) :=
  ⟨by decide,
   (entity_kinds_framed sampleDoc sampleTodo "1" "7" sampleState (by decide)).1⟩

/-! ## Claim C6 -/

theorem map_update_id_of_no_match (id t c : String) (now : Int) :
    ∀ l : List Document, (∀ d ∈ l, ¬(d.id = id)) →
      l.map (fun doc =>
        if doc.id = id then
          { doc with content := c, title := t, updatedAt := now }
        else doc) = l := by
  intro l
  induction l with
  | nil => intro _; rfl
  | cons x xs ih =>
    intro h
    have hx : ¬(x.id = id) := h x (by simp)
    simp only [List.map_cons, if_neg hx]
    rw [ih (fun d hd => h d (by simp [hd]))]

/-- Claim C6 (confirmed): `UPDATE_DOCUMENT(id, title, content)` gives every
document whose id matches the given title and content and stamps it with
the current time (hence, under a monotone clock, an `updatedAt` no smaller
than before); positions and length are preserved; when no document matches,
the state is unchanged, and the reducer is a total function, so no error is
signaled. -/
theorem updateDocument_action (now : Int) (s : NotepadState) (id t c : String)
    (h : ∀ d ∈ s.documents, d.updatedAt ≤ now) :
    (∀ d ∈ (notepadReducer now s (NotepadAction.updateDocument id c t)).documents,
        d.id = id → d.title = t ∧ d.content = c ∧ d.updatedAt = now) ∧
    (notepadReducer now s (NotepadAction.updateDocument id c t)).documents.length
      = s.documents.length ∧
    (∀ (i : Nat) (hi : i < s.documents.length)
        (hj : i < (notepadReducer now s (NotepadAction.updateDocument id c t)).documents.length),
      (s.documents.get ⟨i, hi⟩).updatedAt ≤
        ((notepadReducer now s (NotepadAction.updateDocument id c t)).documents.get ⟨i, hj⟩).updatedAt) ∧
    ((∀ d ∈ s.documents, ¬(d.id = id)) →
      notepadReducer now s (NotepadAction.updateDocument id c t) = s) := by
  refine ⟨?_, ?_, ?_, ?_⟩
  · intro d hd hdid
    simp only [notepadReducer, List.mem_map] at hd
    obtain ⟨d0, hd0, hfd⟩ := hd
    by_cases h0 : d0.id = id
    · rw [if_pos h0] at hfd
      subst hfd
      exact ⟨rfl, rfl, rfl⟩
    · rw [if_neg h0] at hfd
      subst hfd
      exact absurd hdid h0
  · simp [notepadReducer]
  · intro i hi hj
    simp only [notepadReducer] at hj ⊢
    rw [List.get_eq_getElem, List.get_eq_getElem, List.getElem_map]
    by_cases h0 : (s.documents.get ⟨i, hi⟩).id = id
    · simp only [List.get_eq_getElem] at h0
      rw [if_pos h0]
      exact h _ (List.getElem_mem hi)
    · simp only [List.get_eq_getElem] at h0
      rw [if_neg h0]
  · intro hnone
    obtain ⟨docs, act, pm, q⟩ := s
    simp only [notepadReducer]
    rw [map_update_id_of_no_match id t c now docs hnone]

/-- Witness for `updateDocument_action` at a concrete state. -/
theorem updateDocument_action_witness :
    (∀ d ∈ sampleNotepad.documents, d.updatedAt ≤ (5 : Int)) ∧
    (∀ d ∈ (notepadReducer 5 sampleNotepad
        (NotepadAction.updateDocument "1" "y" "x")).documents,
      d.id = "1" → d.title = "x" ∧ d.content = "y" ∧ d.updatedAt = 5) :=
  ⟨by decide, (updateDocument_action 5 sampleNotepad "1" "x" "y" (by decide)).1⟩

/-! ## Claim C7 -/

/-- Claim C7 (confirmed): `DELETE_DOCUMENT(id)` removes exactly the
documents with the matching id, clears the active id when it equals the
deleted id, and leaves it unchanged otherwise. -/
theorem deleteDocument_action (now : Int) (s : NotepadState) (id : String) :
    notepadReducer now s (NotepadAction.deleteDocument id) =
      { s with
          documents := s.documents.filter (fun d => !(d.id = id))
          activeDocumentId :=
            if s.activeDocumentId = some id then none
            else s.activeDocumentId } := by
  obtain ⟨docs, act, pm, q⟩ := s
  cases act with
  | none => simp [notepadReducer]
  | some a =>
    by_cases ha : a = id
    · simp [notepadReducer, ha]
    · simp [notepadReducer, ha]

/-! ## Extractor shape lemmas -/

theorem docCommandStep_shape (now : Int) (u : String) (e : CreatedEntity)
    (m : String) (h : docCommandStep now u = some (e, m)) :
    ∃ raw, searchFrom titleRegex u.data = some raw ∧
      e = CreatedEntity.doc (createDocument now (String.mk (trimChars raw))) ∧
      m = docConfirm (String.mk (trimChars raw)) := by
  by_cases htr : docTrigger (lowerOf u) = true
  · unfold docCommandStep at h
    rw [if_pos htr] at h
    cases hm : searchFrom titleRegex u.data with
    | none => rw [hm] at h; cases h
    | some raw =>
      rw [hm] at h
      cases h
      exact ⟨raw, rfl, rfl, rfl⟩
  · unfold docCommandStep at h
    rw [if_neg htr] at h
    cases h

theorem todoCommandStep_shape (now : Int) (u : String) (e : CreatedEntity)
    (m : String) (h : todoCommandStep now u = some (e, m)) :
    ∃ raw,
      (match searchFrom todoRegex u.data with
       | some r => some r
       | none => searchFrom remindRegex u.data) = some raw ∧
      e = CreatedEntity.todo
        (createTodo now (String.mk (trimChars raw)) (inferPriority (lowerOf u))) ∧
      m = todoConfirm (String.mk (trimChars raw)) (inferPriority (lowerOf u)) := by
  by_cases htr : todoTrigger (lowerOf u) = true
  · unfold todoCommandStep at h
    rw [if_pos htr] at h
    cases hm : (match searchFrom todoRegex u.data with
                | some r => some r
                | none => searchFrom remindRegex u.data) with
    | none => rw [hm] at h; cases h
    | some raw =>
      rw [hm] at h
      cases h
      exact ⟨raw, rfl, rfl, rfl⟩
  · unfold todoCommandStep at h
    rw [if_neg htr] at h
    cases h

/-! ## Claim C5 -/

/-- Claim C5 (confirmed): the decision of the command extractor — whether
and which entity is created — depends only on the user message (and the
clock), never on the assistant reply; and when no intent matches, the given
assistant reply is returned verbatim. -/
theorem extractor_ignores_reply (now : Int) (u r1 r2 : String) :
    (processAICommands now u r1).1 = (processAICommands now u r2).1 ∧
    ((processAICommands now u r1).1 = none →
      (processAICommands now u r1).2 = r1) := by
  cases hd : docCommandStep now u with
  | some pr =>
    obtain ⟨e, m⟩ := pr
    simp [processAICommands, hd]
  | none =>
    cases ht : todoCommandStep now u with
    | some pr =>
      obtain ⟨e, m⟩ := pr
      simp [processAICommands, hd, ht]
    | none => simp [processAICommands, hd, ht]

/-- Witness for `extractor_ignores_reply` on a message with no intent. -/
theorem extractor_ignores_reply_witness :
    (processAICommands 0 "hello" "a").1 = (processAICommands 0 "hello" "b").1 ∧
    ((processAICommands 0 "hello" "a").1 = none →
      (processAICommands 0 "hello" "a").2 = "a") :=
  extractor_ignores_reply 0 "hello" "a" "b"

/-! ## Claim C4 -/

/-- Claim C4 counterexample: in `garbledDocMessage` the trigger phrase
"create document" is present and the title pattern fails to capture, yet
the extractor does not return the original reply unchanged: processing
falls through to the todo branch, creates a TodoItem and returns the todo
confirmation. -/
theorem doc_fallback_cex :
    docTrigger (lowerOf garbledDocMessage) = true ∧
    searchFrom titleRegex garbledDocMessage.data = none ∧
    (processAICommands 0 garbledDocMessage "ok").2 ≠ "ok" ∧
    (processAICommands 0 garbledDocMessage "ok").1 =
      some (CreatedEntity.todo
        { id := "0", content := "pay bills", status := TodoStatus.pending
          priority := TodoPriority.medium, createdAt := 0, updatedAt := 0 }) := by
  refine ⟨?_, ?_, ?_, ?_⟩ <;> decide

/-- Claim C4 (amended): when a document trigger phrase is present but the
title pattern fails to capture, no document is created; and unless the
message also matches the todo intent, the original AI reply is returned
unchanged with no side effect. -/
theorem doc_fallback (now : Int) (u r : String)
    (htrig : docTrigger (lowerOf u) = true)
    (hfail : searchFrom titleRegex u.data = none) :
    (∀ d, (processAICommands now u r).1 ≠ some (CreatedEntity.doc d)) ∧
    (todoCommandStep now u = none →
      processAICommands now u r = (none, r)) := by
  have hdoc : docCommandStep now u = none := by
    unfold docCommandStep
    rw [if_pos htrig, hfail]
  constructor
  · intro d
    cases ht : todoCommandStep now u with
    | none => simp [processAICommands, hdoc, ht]
    | some pr =>
      obtain ⟨e, m⟩ := pr
      obtain ⟨raw, _, he, _⟩ := todoCommandStep_shape now u e m ht
      subst he
      simp [processAICommands, hdoc, ht]
  · intro ht
    simp [processAICommands, hdoc, ht]

/-- Witness for `doc_fallback`: "create document" alone triggers, fails to
capture, matches no todo intent, and the reply passes through unchanged. -/
theorem doc_fallback_witness :
    docTrigger (lowerOf "create document") = true ∧
    searchFrom titleRegex "create document".data = none ∧
    processAICommands 0 "create document" "hello" = (none, "hello") :=
  ⟨by decide, by decide,
   (doc_fallback 0 "create document" "hello" (by decide) (by decide)).2
     (by decide)⟩

/-! ## Claim C8 -/

/-- Claim C8 counterexample: `docOverRemindMessage` matches the reminder
intent (the reminder pattern captures "pay the bills"), yet the extractor
creates a Document, not a TodoItem, because the document branch runs
first. -/
theorem todo_intent_shadowed_cex :
    containsSub "remind me".data (lowerOf docOverRemindMessage) = true ∧
    searchFrom remindRegex docOverRemindMessage.data =
      some "pay the bills".data ∧
    (processAICommands 0 docOverRemindMessage "x").1 =
      some (CreatedEntity.doc
        { id := "0", title := "remind me to pay the bills", content := ""
          createdAt := 0, updatedAt := 0, tags := [] }) := by
  refine ⟨?_, ?_, ?_⟩ <;> decide

/-- Claim C8 (amended): for every message the extractor answers through the
todo branch, the created TodoItem carries the inferred priority — high when
the message contains "urgent" or "important", low when it contains
"low priority", medium otherwise; and the two spec scenarios hold: "remind
me to call the dentist" yields content "call the dentist" at medium
priority, and "remind me to submit the urgent report" yields high
priority. -/
theorem todo_branch_spec :
    (∀ (now : Int) (u r : String) (t : TodoItem),
      (processAICommands now u r).1 = some (CreatedEntity.todo t) →
        t.priority = inferPriority (lowerOf u)) ∧
    processAICommands 0 "remind me to call the dentist" "x" =
      (some (CreatedEntity.todo
        { id := "0", content := "call the dentist"
          status := TodoStatus.pending, priority := TodoPriority.medium
          createdAt := 0, updatedAt := 0 }),
       todoConfirm "call the dentist" TodoPriority.medium) ∧
    processAICommands 0 "remind me to submit the urgent report" "x" =
      (some (CreatedEntity.todo
        { id := "0", content := "submit the urgent report"
          status := TodoStatus.pending, priority := TodoPriority.high
          createdAt := 0, updatedAt := 0 }),
       todoConfirm "submit the urgent report" TodoPriority.high) := by
  refine ⟨?_, by decide, by decide⟩
  intro now u r t h
  cases hd : docCommandStep now u with
  | some pr =>
    obtain ⟨e, m⟩ := pr
    obtain ⟨raw, _, he, _⟩ := docCommandStep_shape now u e m hd
    subst he
    simp [processAICommands, hd] at h
  | none =>
    cases ht : todoCommandStep now u with
    | none => simp [processAICommands, hd, ht] at h
    | some pr =>
      obtain ⟨e, m⟩ := pr
      obtain ⟨raw, _, he, _⟩ := todoCommandStep_shape now u e m ht
      subst he
      simp only [processAICommands, hd, ht] at h
      cases h
      rfl

/-- Witness for `todo_branch_spec` at the dentist scenario. -/
theorem todo_branch_spec_witness :
    (processAICommands 0 "remind me to call the dentist" "x").1 =
      some (CreatedEntity.todo
        (createTodo 0 "call the dentist" TodoPriority.medium)) ∧
    (createTodo 0 "call the dentist" TodoPriority.medium).priority =
      inferPriority (lowerOf "remind me to call the dentist") :=
  ⟨by decide,
   todo_branch_spec.1 0 "remind me to call the dentist" "x"
     (createTodo 0 "call the dentist" TodoPriority.medium) (by decide)⟩

end AINotebook
